import Mathlib

/-!
A shallow embedding of the notebook registry-and-resolution service
(`src/vs/workbench/contrib/notebook/browser/notebookServiceImpl.ts`):
the provider-info store, the output-renderer store, the kernel-provider
store, the model registry, and the mime-type resolution algorithm of
`NotebookService`, together with theorems about them.

Helpers imported from `notebookCommon.ts` (which is not part of the
sources here) are either modelled from the specification (`sortMimeTypes`,
the renderer-id constants, the priority enum token) or kept abstract as
parameters (`mimeTypeSupportedByCore`, `mimeTypeIsAlwaysSecure`, the
selector-matching predicates).
-/

/-- A resource identifier. Only the `scheme` and an opaque `path` matter to
the embedded code (`resource.scheme === 'untitled'` and selector matching). -/
structure URI where
  scheme : String
  path : String
deriving DecidableEq, Repr

/-- One output item of an output payload; only its `mime` field is read by
`getMimeTypeInfo`. -/
structure IOutputItem where
  mime : String
deriving DecidableEq, Repr

/-- The output payload handed to `getMimeTypeInfo` (`IOutputDto`): an ordered
list of output items. -/
structure IOutputDto where
  outputs : List IOutputItem
deriving DecidableEq, Repr

/-- One entry of the resolved sequence returned by `getMimeTypeInfo`
(`IOrderedMimeType`). -/
structure IOrderedMimeType where
  mimeType : String
  rendererId : String
  isTrusted : Bool
deriving DecidableEq, Repr

/-- Modelled from the spec: the id of the built-in renderer
(`BUILTIN_RENDERER_ID` from `notebookCommon.ts`, not among the sources). -/
def BUILTIN_RENDERER_ID : String := "_builtin"

/-- Modelled from the spec: the "no renderer available" sentinel id
(`RENDERER_NOT_AVAILABLE` from `notebookCommon.ts`, not among the sources). -/
def RENDERER_NOT_AVAILABLE : String := "_notAvailable"

/-- Modelled from the spec: the core's native mime support
(`mimeTypeSupportedByCore`) and the always-secure mime set
(`mimeTypeIsAlwaysSecure`) from `notebookCommon.ts` are not among the
sources; the spec only names the two sets, so they are kept abstract as a
pair of predicates. -/
structure CoreMimeOracle where
  supportedByCore : String → Bool
  alwaysSecure : String → Bool

/-- A registered output renderer (`NotebookOutputRendererInfo`): an id and
the set of supported mime types, matched by exact membership. -/
structure NotebookOutputRendererInfo where
  id : String
  mimeTypes : List String
deriving DecidableEq, Repr

/-- Modelled from the spec: `NotebookOutputRendererInfo.matches` (defined in
`notebookOutputRenderer.ts`, not among the sources) — "matched by mime type
via exact-set membership". -/
def NotebookOutputRendererInfo.matchesMime (r : NotebookOutputRendererInfo)
    (mimeType : String) : Bool :=
  r.mimeTypes.contains mimeType

/-- The renderer store's backing map, as an insertion-ordered
association list keyed by `id` (a JS `Map` iterates in insertion order). -/
abbrev RendererStore := List NotebookOutputRendererInfo

/-- `NotebookOutputRendererInfoStore`: does the store already hold this id
(`Map.has`)? -/
def RendererStore.hasId (s : RendererStore) (id : String) : Bool :=
  s.any (fun r => r.id = id)

/-- `NotebookOutputRendererInfoStore.get`. -/
def RendererStore.get (s : RendererStore) (viewType : String) :
    Option NotebookOutputRendererInfo :=
  s.find? (fun r => r.id = viewType)

/-- `NotebookOutputRendererInfoStore.add`: return unchanged when the id is
already present, otherwise append (insertion order of a JS `Map.set`). -/
def RendererStore.add (s : RendererStore) (info : NotebookOutputRendererInfo) :
    RendererStore :=
  if s.hasId info.id then s else s ++ [info]

/-- `NotebookOutputRendererInfoStore.getContributedRenderer`: all renderers
whose mime set contains the given value, in registration order. -/
def RendererStore.getContributedRenderer (s : RendererStore) (mimeType : String) :
    List NotebookOutputRendererInfo :=
  s.filter (fun r => r.matchesMime mimeType)

/-- The display-order state of the service (`_displayOrder`): the
user-configured preference list and the accessibility-derived default list. -/
structure DisplayOrder where
  userOrder : List String
  defaultOrder : List String
deriving DecidableEq, Repr

/-- Position key of a mime type with respect to the two preference lists:
user-listed items first (by their position there), then default-listed items
(by position), then everything else. -/
def mimeTypeTier (userOrder defaultOrder : List String) (m : String) : Nat × Nat :=
  if userOrder.contains m then (0, userOrder.indexOf m)
  else if defaultOrder.contains m then (1, defaultOrder.indexOf m)
  else (2, 0)

/-- Lexicographic comparison of the position keys, as a total boolean
relation for the stable sort. -/
def mimeKeyLe (userOrder defaultOrder : List String) (a b : String) : Bool :=
  let ka := mimeTypeTier userOrder defaultOrder a
  let kb := mimeTypeTier userOrder defaultOrder b
  decide (ka.1 < kb.1 ∨ (ka.1 = kb.1 ∧ ka.2 ≤ kb.2))

/-- Modelled from the spec: `sortMimeTypes` (from `notebookCommon.ts`, not
among the sources) — sort the deduplicated mime list by the two preference
lists, user order before the accessibility default order, items absent from
both keeping their relative order after all preferred items (stable sort by
position key; insertion sort is stable). -/
def sortMimeTypes (mimeTypes userOrder defaultOrder : List String) : List String :=
  mimeTypes.insertionSort (fun a b => mimeKeyLe userOrder defaultOrder a b = true)

/-- The deduplication pass of `getMimeTypeInfo`: walk the outputs, keeping
the first occurrence of each mime type in first-seen order
(`mimeTypeSet` / `mimeTypes` accumulation). -/
def collectMimes (outputs : List IOutputItem) : List String :=
  outputs.foldl
    (fun acc op => if acc.contains op.mime then acc else acc ++ [op.mime]) []

/-- The per-mime-type body of the `sorted.forEach` loop in
`getMimeTypeInfo`: entries for every matching renderer (first handler, then
the rest), a built-in entry when the core supports the mime natively, and a
no-renderer sentinel when neither applies. -/
def handleMime (oracle : CoreMimeOracle) (store : RendererStore)
    (trusted : Bool) (mimeType : String) : List IOrderedMimeType :=
  match store.getContributedRenderer mimeType with
  | [] =>
    if oracle.supportedByCore mimeType then
      [{ mimeType := mimeType, rendererId := BUILTIN_RENDERER_ID,
         isTrusted := oracle.alwaysSecure mimeType || trusted }]
    else
      [{ mimeType := mimeType, rendererId := RENDERER_NOT_AVAILABLE,
         isTrusted := trusted }]
  | handler :: restHandlers =>
    ({ mimeType := mimeType, rendererId := handler.id, isTrusted := trusted } ::
      restHandlers.map (fun h =>
        { mimeType := mimeType, rendererId := h.id, isTrusted := trusted })) ++
    (if oracle.supportedByCore mimeType then
      [{ mimeType := mimeType, rendererId := BUILTIN_RENDERER_ID,
         isTrusted := oracle.alwaysSecure mimeType || trusted }]
     else [])

/-- `NotebookService.getMimeTypeInfo`: deduplicate the payload's mime types,
sort them by the display order, and emit the ordered renderer entries for
each. `trusted` is `textModel.metadata.trusted`. -/
def getMimeTypeInfo (oracle : CoreMimeOracle) (store : RendererStore)
    (displayOrder : DisplayOrder) (trusted : Bool) (output : IOutputDto) :
    List IOrderedMimeType :=
  let mimeTypes := collectMimes output.outputs
  let sorted := sortMimeTypes mimeTypes displayOrder.userOrder displayOrder.defaultOrder
  sorted.flatMap (handleMime oracle store trusted)

/-- The two-valued editor priority enum (`NotebookEditorPriority`). -/
inductive NotebookEditorPriority where
  | default
  | option
deriving DecidableEq, Repr

/-- Modelled from the spec: the literal default-priority token — the string
value of `NotebookEditorPriority.default` (declared in `notebookCommon.ts`,
not among the sources). -/
def defaultPriorityToken : String := "default"

/-- JS falsiness of an optional string (`!priority`): `undefined` and the
empty string are falsy. -/
def strFalsy : Option String → Bool
  | none => true
  | some s => s == ""

/-- `NotebookProviderInfoStore._convertPriority`: a falsy priority gives
`default`; the literal default token gives `default`; anything else gives
`option`. -/
def convertPriority (priority : Option String) : NotebookEditorPriority :=
  if strFalsy priority then NotebookEditorPriority.default
  else if priority == some defaultPriorityToken then NotebookEditorPriority.default
  else NotebookEditorPriority.option

/-- Transient-options configuration carried by controllers and models; the
embedded claims treat it as opaque data. -/
structure TransientOptions where
  transientOutputs : Bool
deriving DecidableEq, Repr

/-- A declarative document-provider registration (`NotebookProviderInfo`,
declared in `notebookProvider.ts`). Selectors are kept as match predicates
on resources, since the glob machinery is not among the sources. -/
structure NotebookProviderInfo where
  id : String
  displayName : String
  selectors : List (URI → Bool)
  priority : NotebookEditorPriority
  providerExtensionId : Option String
  providerDescription : Option String
  providerDisplayName : String
  dynamicContribution : Bool
  exclusive : Bool
  options : Option TransientOptions

/-- Modelled from the spec: `NotebookProviderInfo.matches` (defined in
`notebookProvider.ts`, not among the sources) — an entry matches when some
selector in its selector set matches the resource. -/
def NotebookProviderInfo.matches (info : NotebookProviderInfo) (resource : URI) : Bool :=
  info.selectors.any (fun sel => sel resource)

/-- The provider-info store's backing map `_contributedEditors`, as an
insertion-ordered association list keyed by `id`. -/
abbrev ProviderInfoStore := List NotebookProviderInfo

/-- `_contributedEditors.has(info.id)`. -/
def ProviderInfoStore.hasId (s : ProviderInfoStore) (id : String) : Bool :=
  s.any (fun info => info.id = id)

/-- `NotebookProviderInfoStore.get`: exact lookup by viewType. -/
def ProviderInfoStore.get (s : ProviderInfoStore) (viewType : String) :
    Option NotebookProviderInfo :=
  s.find? (fun info => info.id = viewType)

/-- `NotebookProviderInfoStore.add`: return unchanged when the id is already
present, otherwise append. -/
def ProviderInfoStore.add (s : ProviderInfoStore) (info : NotebookProviderInfo) :
    ProviderInfoStore :=
  if s.hasId info.id then s else s ++ [info]

/-- `NotebookProviderInfoStore.getContributedNotebook`: every entry whose
selector set matches the resource, where `untitled`-scheme resources match
unconditionally. -/
def ProviderInfoStore.getContributedNotebook (s : ProviderInfoStore) (resource : URI) :
    List NotebookProviderInfo :=
  s.filter (fun customEditor =>
    resource.scheme == "untitled" || customEditor.matches resource)

/-- Data of one declared notebook contribution handed to `setupHandler`
(`INotebookEditorContribution`). -/
structure INotebookEditorContribution where
  viewType : String
  displayName : String
  selector : List (URI → Bool)
  priority : Option String

/-- The declaring extension's description, restricted to the fields read by
`setupHandler`. -/
structure IExtensionDescription where
  identifier : String
  description : Option String
  isBuiltin : Bool
  displayName : Option String
  extensionLocation : URI

/-- One extension's batch of notebook contributions
(`IExtensionPointUser<INotebookEditorContribution[]>`). -/
structure IExtensionPointUser where
  value : List INotebookEditorContribution
  description : IExtensionDescription

/-- JS `a || b` for an optional display-name string (empty string falsy). -/
def orElseStr (a : Option String) (b : String) : String :=
  match a with
  | none => b
  | some s => if s == "" then b else s

/-- The provider display name computed by `setupHandler`: "Built-in" for
builtin extensions, otherwise the extension display name or its identifier. -/
def providerDisplayNameOf (d : IExtensionDescription) : String :=
  if d.isBuiltin then "Built-in" else orElseStr d.displayName d.identifier

/-- The `NotebookProviderInfo` that `setupHandler` constructs for one
declared contribution of one extension, with the priority string converted
by `_convertPriority`. -/
def contributionInfo (extension : IExtensionPointUser)
    (notebookContribution : INotebookEditorContribution) : NotebookProviderInfo :=
  { id := notebookContribution.viewType
    displayName := notebookContribution.displayName
    selectors := notebookContribution.selector
    priority := convertPriority notebookContribution.priority
    providerExtensionId := some extension.description.identifier
    providerDescription := extension.description.description
    providerDisplayName := providerDisplayNameOf extension.description
    dynamicContribution := false
    exclusive := false
    options := none }

/-- `NotebookProviderInfoStore.setupHandler`: clear the store, then add one
`NotebookProviderInfo` per declared contribution of every extension. (The
memento persistence and schema re-publication steps touch only external
collaborators.) -/
def setupHandler (extensions : List IExtensionPointUser) : ProviderInfoStore :=
  extensions.foldl (fun store extension =>
    extension.value.foldl (fun store notebookContribution =>
      ProviderInfoStore.add store
        (contributionInfo extension notebookContribution)) store) []

/-- A kernel handed back by a provider's enumeration; treated as opaque
data by the service. -/
structure INotebookKernel where
  friendlyId : String
deriving DecidableEq, Repr

/-- A live kernel-provider registration (`INotebookKernelProvider`).
`selectorMatches` is modelled from the spec: `notebookDocumentFilterMatch
(provider.selector, viewType, resource)` lives in `notebookCommon.ts`,
not among the sources, so the selector is kept abstract as a predicate on
(viewType, resource). `provideKernels` is the provider's fallible
asynchronous enumeration, embedded as an `Except`-valued function. -/
structure INotebookKernelProvider where
  providerExtensionId : String
  providerDescription : Option String
  selectorMatches : String → URI → Bool
  provideKernels : URI → Except String (List INotebookKernel)

/-- `NotebookKernelProviderInfoStore.get`: all providers whose selector
matches the (viewType, resource) pair, in registration order. -/
def kernelProvidersFor (providers : List INotebookKernelProvider)
    (viewType : String) (resource : URI) : List INotebookKernelProvider :=
  providers.filter (fun provider => provider.selectorMatches viewType resource)

/-- The `Promise.all` join of `getNotebookKernels`: one result slot per
provider, in provider order; any provider's failure fails the join. -/
def collectKernelResults (resource : URI) :
    List INotebookKernelProvider → Except String (List (List INotebookKernel))
  | [] => Except.ok []
  | provider :: rest =>
    match provider.provideKernels resource with
    | Except.error e => Except.error e
    | Except.ok data =>
      match collectKernelResults resource rest with
      | Except.error e => Except.error e
      | Except.ok restData => Except.ok (data :: restData)

/-- `NotebookService.getNotebookKernels`: enumerate kernels from every
matching provider, join all the per-provider result slots
(`await Promise.all(promises)`), and return `flatten(result)`; a failing
provider fails the whole call. -/
def getNotebookKernels (providers : List INotebookKernelProvider)
    (viewType : String) (resource : URI) : Except String (List INotebookKernel) :=
  let filteredProvider := kernelProvidersFor providers viewType resource
  (collectKernelResults resource filteredProvider).map List.flatten

/-- Association-list lookup modelling `Map.get`. -/
def AssocMap.get {κ ν : Type} [DecidableEq κ] (m : List (κ × ν)) (k : κ) : Option ν :=
  (m.find? (fun e => e.1 = k)).map (fun e => e.2)

/-- Association-list membership modelling `Map.has`. -/
def AssocMap.has {κ ν : Type} [DecidableEq κ] (m : List (κ × ν)) (k : κ) : Bool :=
  m.any (fun e => e.1 = k)

/-- Association-list update modelling `Map.set`: replace in place when the
key exists, else append (JS `Map` keeps the original insertion position). -/
def AssocMap.set {κ ν : Type} [DecidableEq κ] (m : List (κ × ν)) (k : κ) (v : ν) :
    List (κ × ν) :=
  if AssocMap.has m k then
    m.map (fun e => if e.1 = k then (k, v) else e)
  else m ++ [(k, v)]

/-- Association-list removal modelling `Map.delete`. -/
def AssocMap.delete {κ ν : Type} [DecidableEq κ] (m : List (κ × ν)) (k : κ) :
    List (κ × ν) :=
  m.filter (fun e => !decide (e.1 = k))

/-- Notebook document metadata; the service reads only the `trusted` flag. -/
structure NotebookDocumentMetadata where
  trusted : Bool
deriving DecidableEq, Repr

/-- The creation payload (`NotebookDataDto`): cells (opaque here) and the
document metadata. -/
structure NotebookDataDto where
  cells : List String
  metadata : NotebookDocumentMetadata
deriving DecidableEq, Repr

/-- The in-memory notebook document model (`NotebookTextModel`), restricted
to the fields the service reads or stores. -/
structure NotebookTextModel where
  viewType : String
  uri : URI
  cells : List String
  metadata : NotebookDocumentMetadata
  transientOptions : TransientOptions
deriving DecidableEq, Repr

/-- The registry's per-model wrapper (`ModelData`): the model plus its
listener bundle (whose disposal is recorded on the service trace). -/
structure ModelData where
  model : NotebookTextModel
deriving DecidableEq, Repr

/-- View options a controller may declare
(`IMainNotebookController.viewOptions`): display name, filename patterns
(kept as match predicates), exclusivity. -/
structure NotebookDocumentViewOptions where
  displayName : String
  filenamePattern : List (URI → Bool)
  exclusive : Bool

/-- A registered notebook controller, restricted to the fields
`registerNotebookController` reads. -/
structure IMainNotebookController where
  viewOptions : Option NotebookDocumentViewOptions
  options : TransientOptions

/-- The extension data supplied with a controller registration
(`NotebookExtensionDescription`). -/
structure NotebookExtensionDescription where
  id : String
  location : URI
  description : Option String
deriving DecidableEq, Repr

/-- The value stored in `_notebookProviders` (`INotebookProviderData`). -/
structure INotebookProviderData where
  controller : IMainNotebookController
  extensionData : NotebookExtensionDescription

/-- Observable events and internal actions of the service, recorded on a
trace in execution order: the add/remove/saved document events, the
editor-types-changed event, and the internal steps of the removal path
(index deletion, model disposal, listener-bundle disposal). -/
inductive ServiceEvent where
  | addedDocument (uri : URI)
  | removedDocument (uri : URI)
  | savedDocument (uri : URI)
  | changedEditorTypes
  | deletedFromIndex (uri : URI)
  | disposedModel (uri : URI)
  | disposedModelListeners (uri : URI)
deriving DecidableEq, Repr

/-- The mutable state of `NotebookService`: the controller map, the three
stores, the model index, the display order, plus the event/action trace. -/
structure NotebookServiceState where
  notebookProviders : List (String × INotebookProviderData)
  notebookProviderInfoStore : ProviderInfoStore
  notebookRenderersInfoStore : RendererStore
  notebookKernelProviders : List INotebookKernelProvider
  models : List (URI × ModelData)
  displayOrder : DisplayOrder
  trace : List ServiceEvent

/-- `NotebookService.getNotebookTextModel`: `this._models.get(uri)?.model`. -/
def getNotebookTextModel (s : NotebookServiceState) (uri : URI) :
    Option NotebookTextModel :=
  (AssocMap.get s.models uri).map (fun data => data.model)

/-- `NotebookService.createNotebookTextModel`: fail when a model for the URI
is already registered (`this._models.has(uri)`), otherwise construct the
model, store its `ModelData`, and fire the add event before returning. The
state is returned alongside the result so that the failing case visibly
leaves it untouched. -/
def createNotebookTextModel (s : NotebookServiceState) (viewType : String)
    (uri : URI) (data : NotebookDataDto) (transientOptions : TransientOptions) :
    NotebookServiceState × Except String NotebookTextModel :=
  if AssocMap.has s.models uri then
    (s, Except.error ("notebook for " ++ uri.scheme ++ "://" ++ uri.path ++
      " already exists"))
  else
    let notebookModel : NotebookTextModel :=
      { viewType := viewType, uri := uri, cells := data.cells,
        metadata := data.metadata, transientOptions := transientOptions }
    let s' : NotebookServiceState :=
      { s with models := AssocMap.set s.models uri { model := notebookModel },
               trace := s.trace ++ [ServiceEvent.addedDocument uri] }
    (s', Except.ok notebookModel)

/-- Modelled from the spec: `NotebookTextModel.dispose` (defined in
`notebookTextModel.ts`, not among the sources) first fires the model's own
`onWillDispose` signal — re-entering the service removal path through the
`ModelData` listener — and then completes the model's disposal. -/
def modelDisposeWith (reenter : NotebookServiceState → NotebookServiceState)
    (s : NotebookServiceState) (uri : URI) : NotebookServiceState :=
  let s := reenter s
  { s with trace := s.trace ++ [ServiceEvent.disposedModel uri] }

/-- `NotebookService._onWillDisposeDocument`: look the model up, delete the
URI from the index, and — when a model was registered — dispose the model
(whose own dispose signal re-enters this very path, hence the fuel), dispose
its listener bundle, and fire the removal event. -/
def onWillDisposeDocument : Nat → NotebookServiceState → URI → NotebookServiceState
  | 0, s, _ => s
  | fuel + 1, s, uri =>
    let modelData := AssocMap.get s.models uri
    let s' : NotebookServiceState :=
      { s with models := AssocMap.delete s.models uri,
               trace := s.trace ++ [ServiceEvent.deletedFromIndex uri] }
    match modelData with
    | none => s'
    | some _ =>
      let s'' := modelDisposeWith (fun t => onWillDisposeDocument fuel t uri) s' uri
      let s''' : NotebookServiceState :=
        { s'' with trace := s''.trace ++ [ServiceEvent.disposedModelListeners uri] }
      { s''' with trace := s'''.trace ++ [ServiceEvent.removedDocument uri] }

/-- `NotebookService.destoryNotebookDocument`: explicit destruction enters
the removal path directly. Fuel 2 covers the single re-entrant step the
model's own dispose signal triggers. -/
def destoryNotebookDocument (s : NotebookServiceState) (uri : URI) :
    NotebookServiceState :=
  onWillDisposeDocument 2 s uri

/-- The model's own disposal, started from outside the service: the model
fires its dispose signal, which enters the service removal path, after
which the model finishes disposing itself. -/
def modelSelfDispose (s : NotebookServiceState) (uri : URI) : NotebookServiceState :=
  modelDisposeWith (fun t => onWillDisposeDocument 2 t uri) s uri

/-- `get(viewType)?.update({ options })`: refresh the stored options of the
provider-info entry for this viewType, if one exists (`update` is declared
in `notebookProvider.ts`; its options-merging is modelled from the spec:
"always refreshes that entry's stored options"). -/
def ProviderInfoStore.updateOptions (s : ProviderInfoStore) (viewType : String)
    (opts : TransientOptions) : ProviderInfoStore :=
  s.map (fun info => if info.id = viewType then { info with options := some opts }
    else info)

/-- `NotebookService.registerNotebookController`: fail when a controller for
the viewType exists; store the controller; when it declares view options and
no provider-info entry exists, synthesize a dynamic entry (selectors and
options applied via `update`); always refresh the stored entry's options;
fire the editor-types-changed event. -/
def registerNotebookController (s : NotebookServiceState) (viewType : String)
    (extensionData : NotebookExtensionDescription)
    (controller : IMainNotebookController) : Except String NotebookServiceState :=
  if AssocMap.has s.notebookProviders viewType then
    Except.error ("notebook controller for viewtype " ++ viewType ++
      " already exists")
  else
    let providerData : INotebookProviderData :=
      { controller := controller, extensionData := extensionData }
    let providers' := AssocMap.set s.notebookProviders viewType providerData
    let infoStore' : ProviderInfoStore :=
      match controller.viewOptions,
            ProviderInfoStore.get s.notebookProviderInfoStore viewType with
      | some viewOptions, none =>
        let info : NotebookProviderInfo :=
          { id := viewType
            displayName := viewOptions.displayName
            selectors := []
            priority := NotebookEditorPriority.default
            providerExtensionId := some extensionData.id
            providerDescription := extensionData.description
            providerDisplayName := extensionData.id
            dynamicContribution := true
            exclusive := viewOptions.exclusive
            options := none }
        let info := { info with selectors := viewOptions.filenamePattern }
        let info := { info with options := some controller.options }
        ProviderInfoStore.add s.notebookProviderInfoStore info
      | _, _ => s.notebookProviderInfoStore
    let refreshedStore : ProviderInfoStore :=
      ProviderInfoStore.updateOptions infoStore' viewType controller.options
    Except.ok { s with notebookProviders := providers',
                       notebookProviderInfoStore := refreshedStore,
                       trace := s.trace ++ [ServiceEvent.changedEditorTypes] }

/-- The disposal handle returned by `registerNotebookController`: delete the
controller entry and re-fire the editor-types-changed event. -/
def disposeNotebookController (s : NotebookServiceState) (viewType : String) :
    NotebookServiceState :=
  let s : NotebookServiceState :=
    { s with notebookProviders := AssocMap.delete s.notebookProviders viewType }
  { s with trace := s.trace ++ [ServiceEvent.changedEditorTypes] }

/-- `NotebookService.getContributedNotebookProvider`: exact provider-info
lookup by viewType. -/
def getContributedNotebookProvider (s : NotebookServiceState) (viewType : String) :
    Option NotebookProviderInfo :=
  ProviderInfoStore.get s.notebookProviderInfoStore viewType

/-- `getMimeTypeInfo` as the service exposes it: trust comes from the text
model's metadata, renderers and display order from the service state. -/
def serviceGetMimeTypeInfo (oracle : CoreMimeOracle) (s : NotebookServiceState)
    (textModel : NotebookTextModel) (output : IOutputDto) : List IOrderedMimeType :=
  getMimeTypeInfo oracle s.notebookRenderersInfoStore s.displayOrder
    textModel.metadata.trusted output
/-! ## Association-map lemmas -/

theorem AssocMap.get_delete_self {κ ν : Type} [DecidableEq κ]
    (m : List (κ × ν)) (k : κ) : AssocMap.get (AssocMap.delete m k) k = none := by
  unfold AssocMap.get AssocMap.delete
  rw [Option.map_eq_none', List.find?_eq_none]
  intro x hx
  rcases List.mem_filter.mp hx with ⟨-, hpred⟩
  simpa using hpred

theorem AssocMap.get_delete_ne {κ ν : Type} [DecidableEq κ]
    (m : List (κ × ν)) (k k' : κ) (h : k' ≠ k) :
    AssocMap.get (AssocMap.delete m k) k' = AssocMap.get m k' := by
  unfold AssocMap.get AssocMap.delete
  congr 1
  induction m with
  | nil => rfl
  | cons e es ih =>
    by_cases he' : e.1 = k'
    · have hek : ¬ e.1 = k := by
        rw [he']
        exact h
      simp [List.filter_cons, List.find?_cons, he', hek, h]
    · by_cases he : e.1 = k
      · simp only [List.filter_cons, he]
        simpa [he'] using ih
      · simp only [List.filter_cons, he]
        simp [List.find?_cons, he, he', ih]

theorem AssocMap.delete_delete {κ ν : Type} [DecidableEq κ]
    (m : List (κ × ν)) (k : κ) :
    AssocMap.delete (AssocMap.delete m k) k = AssocMap.delete m k := by
  unfold AssocMap.delete
  rw [List.filter_filter]
  simp

theorem AssocMap.get_set_self_of_has_false {κ ν : Type} [DecidableEq κ]
    (m : List (κ × ν)) (k : κ) (v : ν) (h : AssocMap.has m k = false) :
    AssocMap.get (AssocMap.set m k v) k = some v := by
  unfold AssocMap.set
  rw [h]
  simp only [Bool.false_eq_true, if_false]
  unfold AssocMap.get
  rw [List.find?_append]
  have hnone : List.find? (fun e => decide (e.1 = k)) m = none := by
    rw [List.find?_eq_none]
    intro x hx
    unfold AssocMap.has at h
    have := List.any_eq_false.mp h x hx
    simpa using this
  simp [hnone]

/-! ## Concrete sample data used by the witnesses -/

/-- A sample static provider-info entry whose selector rejects everything. -/
def sampleProviderInfo : NotebookProviderInfo :=
  { id := "jupyter-notebook", displayName := "Jupyter", selectors := [fun _ => false],
    priority := NotebookEditorPriority.default, providerExtensionId := none,
    providerDescription := none, providerDisplayName := "P",
    dynamicContribution := false, exclusive := false, options := none }

/-- A second provider-info entry sharing `sampleProviderInfo`'s id. -/
def sampleProviderInfoClash : NotebookProviderInfo :=
  { id := "jupyter-notebook", displayName := "Other", selectors := [],
    priority := NotebookEditorPriority.option, providerExtensionId := none,
    providerDescription := none, providerDisplayName := "Q",
    dynamicContribution := true, exclusive := true, options := none }

/-- A sample renderer for `application/json`. -/
def sampleRendererA : NotebookOutputRendererInfo :=
  { id := "rendererA", mimeTypes := ["application/json"] }

/-- A second sample renderer for `application/json`. -/
def sampleRendererB : NotebookOutputRendererInfo :=
  { id := "rendererB", mimeTypes := ["application/json"] }

/-- A renderer clashing with `sampleRendererA`'s id. -/
def sampleRendererClash : NotebookOutputRendererInfo :=
  { id := "rendererA", mimeTypes := ["image/png"] }

/-! ## Store claims -/

/-- C8: for `untitled`-scheme resources `getContributedNotebook` returns
every provider in the store regardless of selectors; for any other resource
it returns exactly the providers whose selector matches. -/
theorem getContributedNotebook_untitled_matches
    (s : ProviderInfoStore) (resource : URI) :
    (resource.scheme = "untitled" →
      ProviderInfoStore.getContributedNotebook s resource = s) ∧
    (resource.scheme ≠ "untitled" →
      ProviderInfoStore.getContributedNotebook s resource =
        s.filter (fun info => info.matches resource)) := by
  constructor
  · intro h
    unfold ProviderInfoStore.getContributedNotebook
    rw [List.filter_eq_self]
    intro a _
    simp [h]
  · intro h
    unfold ProviderInfoStore.getContributedNotebook
    congr 1
    funext info
    simp [h]

/-- Witness for C8: an `untitled` resource gets the whole store back even
though the single provider's selector rejects everything, and a `file`
resource is filtered down by the selectors. -/
theorem getContributedNotebook_untitled_matches_witness :
    (ProviderInfoStore.getContributedNotebook [sampleProviderInfo]
      { scheme := "untitled", path := "u" } = [sampleProviderInfo]) ∧
    (ProviderInfoStore.getContributedNotebook [sampleProviderInfo]
      { scheme := "file", path := "a.ipynb" } = []) := by
  constructor
  · exact (getContributedNotebook_untitled_matches [sampleProviderInfo] _).1 rfl
  · rw [(getContributedNotebook_untitled_matches [sampleProviderInfo]
      { scheme := "file", path := "a.ipynb" }).2 (by decide)]
    rfl

/-- C9: for both the provider-info store and the output-renderer store,
`add` with an already-present id is a no-op — the contents are unchanged and
`get` afterwards still returns the original entry. -/
theorem store_add_idempotent
    (ps : ProviderInfoStore) (pinfo : NotebookProviderInfo)
    (rs : RendererStore) (rinfo : NotebookOutputRendererInfo)
    (hp : ProviderInfoStore.hasId ps pinfo.id = true)
    (hr : RendererStore.hasId rs rinfo.id = true) :
    ProviderInfoStore.add ps pinfo = ps ∧
    ProviderInfoStore.get (ProviderInfoStore.add ps pinfo) pinfo.id =
      ProviderInfoStore.get ps pinfo.id ∧
    RendererStore.add rs rinfo = rs ∧
    RendererStore.get (RendererStore.add rs rinfo) rinfo.id =
      RendererStore.get rs rinfo.id := by
  have h1 : ProviderInfoStore.add ps pinfo = ps := by
    unfold ProviderInfoStore.add
    rw [hp]
    simp
  have h2 : RendererStore.add rs rinfo = rs := by
    unfold RendererStore.add
    rw [hr]
    simp
  exact ⟨h1, by rw [h1], h2, by rw [h2]⟩

/-- Witness for C9: adding entries whose ids are already taken leaves both
concrete stores unchanged. -/
theorem store_add_idempotent_witness :
    ProviderInfoStore.hasId [sampleProviderInfo] sampleProviderInfoClash.id = true ∧
    RendererStore.hasId [sampleRendererA] sampleRendererClash.id = true ∧
    ProviderInfoStore.add [sampleProviderInfo] sampleProviderInfoClash =
      [sampleProviderInfo] ∧
    RendererStore.add [sampleRendererA] sampleRendererClash = [sampleRendererA] := by
  refine ⟨rfl, rfl, ?_, ?_⟩
  · exact (store_add_idempotent [sampleProviderInfo] sampleProviderInfoClash
      [sampleRendererA] sampleRendererClash rfl rfl).1
  · exact (store_add_idempotent [sampleProviderInfo] sampleProviderInfoClash
      [sampleRendererA] sampleRendererClash rfl rfl).2.2.1

/-! ## Determinism of mime resolution (C2) -/

/-- A sample oracle: JSON, plain text and PNG are natively supported; plain
text is always secure. -/
def sampleOracle : CoreMimeOracle :=
  { supportedByCore := fun m =>
      m == "application/json" || m == "text/plain" || m == "image/png",
    alwaysSecure := fun m => m == "text/plain" }

/-- A sample service state with one registered renderer. -/
def sampleState : NotebookServiceState :=
  { notebookProviders := [], notebookProviderInfoStore := [],
    notebookRenderersInfoStore := [sampleRendererA],
    notebookKernelProviders := [], models := [],
    displayOrder := { userOrder := [], defaultOrder := [] }, trace := [] }

/-- A second sample state agreeing with `sampleState` on the renderer store
and the display order but differing everywhere else. -/
def sampleStateOther : NotebookServiceState :=
  { sampleState with
    notebookProviderInfoStore := [sampleProviderInfo],
    trace := [ServiceEvent.changedEditorTypes] }

/-- A sample untrusted document model. -/
def sampleModel : NotebookTextModel :=
  { viewType := "vt", uri := { scheme := "file", path := "/a.ipynb" },
    cells := [], metadata := { trusted := false },
    transientOptions := { transientOutputs := false } }

/-- A model agreeing with `sampleModel` only on the trust flag. -/
def sampleModelOther : NotebookTextModel :=
  { viewType := "other", uri := { scheme := "file", path := "/b.ipynb" },
    cells := ["c"], metadata := { trusted := false },
    transientOptions := { transientOutputs := true } }

/-- A sample output payload with a duplicate mime type. -/
def sampleOutput : IOutputDto :=
  { outputs := [{ mime := "application/json" }, { mime := "application/json" },
                { mime := "text/vnd-unknown" }] }

/-- C2: `getMimeTypeInfo` is a function of exactly (renderer registrations,
display-order preference lists, document trust flag, output payload): two
service states and models that agree on those produce the identical ordered
sequence. -/
theorem getMimeTypeInfo_deterministic
    (oracle : CoreMimeOracle) (s1 s2 : NotebookServiceState)
    (m1 m2 : NotebookTextModel) (output : IOutputDto)
    (hrenderers : s1.notebookRenderersInfoStore = s2.notebookRenderersInfoStore)
    (horder : s1.displayOrder = s2.displayOrder)
    (htrust : m1.metadata.trusted = m2.metadata.trusted) :
    serviceGetMimeTypeInfo oracle s1 m1 output =
      serviceGetMimeTypeInfo oracle s2 m2 output := by
  unfold serviceGetMimeTypeInfo
  rw [hrenderers, horder, htrust]

/-- Witness for C2: two concrete states (different provider-info stores and
traces) and two concrete models (different viewTypes, URIs, cells) that
agree on the determining inputs resolve `sampleOutput` identically. -/
theorem getMimeTypeInfo_deterministic_witness :
    sampleState.notebookRenderersInfoStore =
      sampleStateOther.notebookRenderersInfoStore ∧
    sampleState.displayOrder = sampleStateOther.displayOrder ∧
    sampleModel.metadata.trusted = sampleModelOther.metadata.trusted ∧
    serviceGetMimeTypeInfo sampleOracle sampleState sampleModel sampleOutput =
      serviceGetMimeTypeInfo sampleOracle sampleStateOther sampleModelOther
        sampleOutput :=
  ⟨rfl, rfl, rfl,
    getMimeTypeInfo_deterministic sampleOracle sampleState sampleStateOther
      sampleModel sampleModelOther sampleOutput rfl rfl rfl⟩

/-! ## Priority conversion (C7) -/

theorem mem_of_mem_add (s : ProviderInfoStore) (i info : NotebookProviderInfo)
    (h : info ∈ ProviderInfoStore.add s i) : info ∈ s ∨ info = i := by
  unfold ProviderInfoStore.add at h
  by_cases hc : ProviderInfoStore.hasId s i.id
  · rw [hc] at h
    simp only [if_true] at h
    exact Or.inl h
  · rw [Bool.of_not_eq_true hc] at h
    simp only [Bool.false_eq_true, if_false] at h
    rcases List.mem_append.mp h with h' | h'
    · exact Or.inl h'
    · exact Or.inr (List.mem_singleton.mp h')

theorem mem_foldl_add {α : Type} (f : α → NotebookProviderInfo) (l : List α)
    (init : ProviderInfoStore) (info : NotebookProviderInfo)
    (h : info ∈ l.foldl (fun store c => ProviderInfoStore.add store (f c)) init) :
    info ∈ init ∨ ∃ c ∈ l, info = f c := by
  induction l generalizing init with
  | nil => exact Or.inl h
  | cons c cs ih =>
    rcases ih (ProviderInfoStore.add init (f c)) h with h' | h'
    · rcases mem_of_mem_add init (f c) info h' with h'' | h''
      · exact Or.inl h''
      · exact Or.inr ⟨c, List.mem_cons_self c cs, h''⟩
    · rcases h' with ⟨c', hc', he⟩
      exact Or.inr ⟨c', List.mem_cons_of_mem c hc', he⟩

theorem mem_setupHandler (extensions : List IExtensionPointUser)
    (info : NotebookProviderInfo) (h : info ∈ setupHandler extensions) :
    ∃ ext ∈ extensions, ∃ c ∈ ext.value, info = contributionInfo ext c := by
  unfold setupHandler at h
  suffices haux : ∀ (exts : List IExtensionPointUser) (init : ProviderInfoStore),
      info ∈ exts.foldl (fun store extension =>
        extension.value.foldl (fun store c =>
          ProviderInfoStore.add store (contributionInfo extension c)) store) init →
      info ∈ init ∨ ∃ ext ∈ exts, ∃ c ∈ ext.value, info = contributionInfo ext c by
    rcases haux extensions [] h with h' | h'
    · cases h'
    · exact h'
  intro exts
  induction exts with
  | nil => exact fun init h' => Or.inl h'
  | cons ext rest ih =>
    intro init h'
    rcases ih _ h' with h'' | h''
    · rcases mem_foldl_add (contributionInfo ext) ext.value init info h'' with h3 | h3
      · exact Or.inl h3
      · rcases h3 with ⟨c, hc, he⟩
        exact Or.inr ⟨ext, List.mem_cons_self ext rest, c, hc, he⟩
    · rcases h'' with ⟨ext', hext', c, hc, he⟩
      exact Or.inr ⟨ext', List.mem_cons_of_mem ext hext', c, hc, he⟩

/-- C7 (amended): every entry produced by `setupHandler` carries the
converted priority of some processed declaration, and the conversion maps
every non-empty priority string other than the literal default token to the
`option` priority — while the default token, a missing priority, and the
empty string (falsy in JS) all map to `default`. -/
theorem setupHandler_priority_conversion :
    (∀ (extensions : List IExtensionPointUser) (info : NotebookProviderInfo),
      info ∈ setupHandler extensions →
      ∃ ext ∈ extensions, ∃ c ∈ ext.value,
        info.id = c.viewType ∧ info.priority = convertPriority c.priority) ∧
    (∀ s : String, s ≠ "" → s ≠ defaultPriorityToken →
      convertPriority (some s) = NotebookEditorPriority.option) ∧
    convertPriority (some defaultPriorityToken) = NotebookEditorPriority.default ∧
    convertPriority none = NotebookEditorPriority.default ∧
    convertPriority (some "") = NotebookEditorPriority.default := by
  refine ⟨?_, ?_, rfl, rfl, rfl⟩
  · intro extensions info h
    rcases mem_setupHandler extensions info h with ⟨ext, hext, c, hc, he⟩
    exact ⟨ext, hext, c, hc, by rw [he]; rfl, by rw [he]; rfl⟩
  · intro s hne hnd
    unfold convertPriority strFalsy
    simp [hne, hnd]

/-- Witness for C7's amended theorem: the non-empty, non-default string
"custom" converts to the `option` priority. -/
theorem setupHandler_priority_conversion_witness :
    ("custom" : String) ≠ "" ∧ ("custom" : String) ≠ defaultPriorityToken ∧
    convertPriority (some "custom") = NotebookEditorPriority.option :=
  ⟨by decide, by decide,
    setupHandler_priority_conversion.2.1 "custom" (by decide) (by decide)⟩

/-- An extension declaring one notebook contribution whose priority string
is the empty string. -/
def sampleEmptyPriorityExtension : IExtensionPointUser :=
  { value := [{ viewType := "vt", displayName := "D", selector := [],
                priority := some "" }],
    description := { identifier := "publisher.ext", description := none,
                     isBuiltin := false, displayName := none,
                     extensionLocation := { scheme := "file", path := "/e" } } }

/-- C7 counterexample: the empty priority string is a value other than the
literal default token, yet `setupHandler` stores the declaration with the
`default` priority, not the `option` priority. -/
theorem convertPriority_empty_string_counterexample :
    ("" : String) ≠ defaultPriorityToken ∧
    (setupHandler [sampleEmptyPriorityExtension]).map
      (fun info => (info.id, info.priority)) =
      [("vt", NotebookEditorPriority.default)] ∧
    convertPriority (some "") ≠ NotebookEditorPriority.option :=
  ⟨by decide, rfl, by decide⟩

/-! ## Model registry: creation (C5) and disposal (C4) -/

/-- The sample document URI used by the model-registry witnesses. -/
def sampleUri : URI := { scheme := "file", path := "/a.ipynb" }

/-- A sample creation payload for an untrusted document. -/
def sampleData : NotebookDataDto := { cells := ["cell0"], metadata := { trusted := false } }

/-- Sample transient options. -/
def sampleTransient : TransientOptions := { transientOutputs := false }

/-- `sampleState` after registering a model for `sampleUri`. -/
def sampleStateWithModel : NotebookServiceState :=
  (createNotebookTextModel sampleState "vt" sampleUri sampleData sampleTransient).1

/-- C5: `createNotebookTextModel` fails with the already-exists error and an
unchanged state whenever a model for the URI is registered; otherwise it
registers the new model, appends the add event to the trace before
returning, and `getNotebookTextModel` afterwards returns that model. -/
theorem createNotebookTextModel_spec
    (s : NotebookServiceState) (viewType : String) (uri : URI)
    (data : NotebookDataDto) (transientOptions : TransientOptions) :
    (AssocMap.has s.models uri = true →
      createNotebookTextModel s viewType uri data transientOptions =
        (s, Except.error ("notebook for " ++ uri.scheme ++ "://" ++ uri.path ++
          " already exists"))) ∧
    (AssocMap.has s.models uri = false →
      ∃ nm : NotebookTextModel,
        (createNotebookTextModel s viewType uri data transientOptions).2 =
          Except.ok nm ∧
        nm.viewType = viewType ∧ nm.uri = uri ∧
        nm.cells = data.cells ∧ nm.metadata = data.metadata ∧
        getNotebookTextModel
          (createNotebookTextModel s viewType uri data transientOptions).1 uri =
          some nm ∧
        (createNotebookTextModel s viewType uri data transientOptions).1.trace =
          s.trace ++ [ServiceEvent.addedDocument uri]) := by
  constructor
  · intro h
    unfold createNotebookTextModel
    rw [h]
    simp
  · intro h
    refine ⟨{ viewType := viewType, uri := uri, cells := data.cells,
              metadata := data.metadata, transientOptions := transientOptions },
            ?_, rfl, rfl, rfl, rfl, ?_, ?_⟩
    · unfold createNotebookTextModel
      rw [h]
      simp
    · unfold getNotebookTextModel createNotebookTextModel
      rw [h]
      simp only [Bool.false_eq_true, if_false]
      rw [AssocMap.get_set_self_of_has_false s.models uri _ h]
      rfl
    · unfold createNotebookTextModel
      rw [h]
      simp

/-- Witness for C5: on the empty sample state creation succeeds (model
retrievable, add event on the trace); on the state already holding the
model, a second creation fails with the already-exists error and the
returned state is the input state. -/
theorem createNotebookTextModel_spec_witness :
    AssocMap.has sampleState.models sampleUri = false ∧
    (∃ nm : NotebookTextModel,
      (createNotebookTextModel sampleState "vt" sampleUri sampleData
        sampleTransient).2 = Except.ok nm ∧
      nm.viewType = "vt" ∧ nm.uri = sampleUri ∧
      nm.cells = sampleData.cells ∧ nm.metadata = sampleData.metadata ∧
      getNotebookTextModel
        (createNotebookTextModel sampleState "vt" sampleUri sampleData
          sampleTransient).1 sampleUri = some nm ∧
      (createNotebookTextModel sampleState "vt" sampleUri sampleData
        sampleTransient).1.trace =
        sampleState.trace ++ [ServiceEvent.addedDocument sampleUri]) ∧
    AssocMap.has sampleStateWithModel.models sampleUri = true ∧
    createNotebookTextModel sampleStateWithModel "vt2" sampleUri sampleData
      sampleTransient =
      (sampleStateWithModel, Except.error ("notebook for " ++ sampleUri.scheme ++
        "://" ++ sampleUri.path ++ " already exists")) := by
  refine ⟨rfl, ?_, rfl, ?_⟩
  · exact (createNotebookTextModel_spec sampleState "vt" sampleUri sampleData
      sampleTransient).2 rfl
  · exact (createNotebookTextModel_spec sampleStateWithModel "vt2" sampleUri
      sampleData sampleTransient).1 rfl

theorem destoryNotebookDocument_eq (s : NotebookServiceState) (uri : URI)
    (md : ModelData) (hreg : AssocMap.get s.models uri = some md) :
    destoryNotebookDocument s uri =
      { s with models := AssocMap.delete s.models uri,
               trace := s.trace ++
                 [ServiceEvent.deletedFromIndex uri, ServiceEvent.deletedFromIndex uri,
                  ServiceEvent.disposedModel uri, ServiceEvent.disposedModelListeners uri,
                  ServiceEvent.removedDocument uri] } := by
  simp [destoryNotebookDocument, onWillDisposeDocument, modelDisposeWith, hreg,
    AssocMap.get_delete_self, AssocMap.delete_delete]

theorem modelSelfDispose_eq (s : NotebookServiceState) (uri : URI)
    (md : ModelData) (hreg : AssocMap.get s.models uri = some md) :
    modelSelfDispose s uri =
      { s with models := AssocMap.delete s.models uri,
               trace := s.trace ++
                 [ServiceEvent.deletedFromIndex uri, ServiceEvent.deletedFromIndex uri,
                  ServiceEvent.disposedModel uri, ServiceEvent.disposedModelListeners uri,
                  ServiceEvent.removedDocument uri, ServiceEvent.disposedModel uri] } := by
  simp [modelSelfDispose, onWillDisposeDocument, modelDisposeWith, hreg,
    AssocMap.get_delete_self, AssocMap.delete_delete]

/-- C4: for a registered model, both disposal paths (explicit destruction
and the model's own dispose signal) delete the URI from the index first
(both index deletions precede the model and listener disposals on the
trace), then dispose the model and its listener bundle, then fire the
removal event; exactly one removal event is appended even though the
model's dispose re-enters the removal path, and the model is no longer
retrievable afterwards. -/
theorem disposeDocument_removes_before_dispose
    (s : NotebookServiceState) (uri : URI) (md : ModelData)
    (hreg : AssocMap.get s.models uri = some md) :
    (getNotebookTextModel (destoryNotebookDocument s uri) uri = none ∧
     (destoryNotebookDocument s uri).trace = s.trace ++
       [ServiceEvent.deletedFromIndex uri, ServiceEvent.deletedFromIndex uri,
        ServiceEvent.disposedModel uri, ServiceEvent.disposedModelListeners uri,
        ServiceEvent.removedDocument uri] ∧
     (destoryNotebookDocument s uri).trace.count (ServiceEvent.removedDocument uri) =
       s.trace.count (ServiceEvent.removedDocument uri) + 1) ∧
    (getNotebookTextModel (modelSelfDispose s uri) uri = none ∧
     (modelSelfDispose s uri).trace = s.trace ++
       [ServiceEvent.deletedFromIndex uri, ServiceEvent.deletedFromIndex uri,
        ServiceEvent.disposedModel uri, ServiceEvent.disposedModelListeners uri,
        ServiceEvent.removedDocument uri, ServiceEvent.disposedModel uri] ∧
     (modelSelfDispose s uri).trace.count (ServiceEvent.removedDocument uri) =
       s.trace.count (ServiceEvent.removedDocument uri) + 1) := by
  rw [destoryNotebookDocument_eq s uri md hreg, modelSelfDispose_eq s uri md hreg]
  refine ⟨⟨?_, rfl, ?_⟩, ?_, rfl, ?_⟩
  · unfold getNotebookTextModel
    rw [AssocMap.get_delete_self]
    rfl
  · simp [List.count_append, List.count_cons]
  · unfold getNotebookTextModel
    rw [AssocMap.get_delete_self]
    rfl
  · simp [List.count_append, List.count_cons]

/-- Witness for C4: on the concrete state holding the sample model, both
disposal paths leave `getNotebookTextModel` empty. -/
theorem disposeDocument_removes_before_dispose_witness :
    AssocMap.get sampleStateWithModel.models sampleUri =
      some { model := { viewType := "vt", uri := sampleUri,
                        cells := sampleData.cells, metadata := sampleData.metadata,
                        transientOptions := sampleTransient } } ∧
    getNotebookTextModel (destoryNotebookDocument sampleStateWithModel sampleUri)
      sampleUri = none ∧
    getNotebookTextModel (modelSelfDispose sampleStateWithModel sampleUri)
      sampleUri = none := by
  refine ⟨rfl, ?_, ?_⟩
  · exact (disposeDocument_removes_before_dispose sampleStateWithModel sampleUri
      _ rfl).1.1
  · exact (disposeDocument_removes_before_dispose sampleStateWithModel sampleUri
      _ rfl).2.1

/-! ## Kernel enumeration (C6) -/

theorem collectKernelResults_error (resource : URI)
    (l : List INotebookKernelProvider)
    (h : ∃ p ∈ l, ∃ err, p.provideKernels resource = Except.error err) :
    ∃ err, collectKernelResults resource l = Except.error err := by
  induction l with
  | nil =>
    rcases h with ⟨p, hp, -⟩
    cases hp
  | cons q qs ih =>
    rcases h with ⟨p, hp, err, herr⟩
    unfold collectKernelResults
    cases hq : q.provideKernels resource with
    | error e => exact ⟨e, rfl⟩
    | ok d =>
      rcases List.mem_cons.mp hp with hpq | hpqs
      · rw [hpq] at herr
        rw [herr] at hq
        cases hq
      · rcases ih ⟨p, hpqs, err, herr⟩ with ⟨e', he'⟩
        rw [he']
        exact ⟨e', rfl⟩

theorem collectKernelResults_ok (resource : URI)
    (l : List INotebookKernelProvider) (rs : List (List INotebookKernel))
    (h : collectKernelResults resource l = Except.ok rs) :
    l.map (fun p => p.provideKernels resource) = rs.map Except.ok := by
  induction l generalizing rs with
  | nil =>
    unfold collectKernelResults at h
    cases h
    rfl
  | cons q qs ih =>
    unfold collectKernelResults at h
    cases hq : q.provideKernels resource with
    | error e =>
      rw [hq] at h
      cases h
    | ok d =>
      rw [hq] at h
      cases hc : collectKernelResults resource qs with
      | error e =>
        rw [hc] at h
        cases h
      | ok rest =>
        rw [hc] at h
        cases h
        simp [hq, ih rest hc]

/-- C6: `getNotebookKernels` fails whenever some matching provider's
enumeration fails (no partial results), and whenever it succeeds the result
is the concatenation of every matching provider's successful result list,
one slot per provider in registration order. -/
theorem getNotebookKernels_join_spec
    (providers : List INotebookKernelProvider) (viewType : String)
    (resource : URI) :
    ((∃ p ∈ kernelProvidersFor providers viewType resource,
        ∃ err, p.provideKernels resource = Except.error err) →
      ∃ err, getNotebookKernels providers viewType resource = Except.error err) ∧
    (∀ ks, getNotebookKernels providers viewType resource = Except.ok ks →
      ∃ results : List (List INotebookKernel),
        (kernelProvidersFor providers viewType resource).map
          (fun p => p.provideKernels resource) = results.map Except.ok ∧
        ks = results.flatten) := by
  constructor
  · intro h
    rcases collectKernelResults_error resource _ h with ⟨err, herr⟩
    refine ⟨err, ?_⟩
    show Except.map List.flatten (collectKernelResults resource
      (kernelProvidersFor providers viewType resource)) = Except.error err
    rw [herr]
    rfl
  · intro ks h
    have h' : Except.map List.flatten (collectKernelResults resource
        (kernelProvidersFor providers viewType resource)) = Except.ok ks := h
    cases hc : collectKernelResults resource
        (kernelProvidersFor providers viewType resource) with
    | error e =>
      rw [hc] at h'
      cases h'
    | ok rs =>
      rw [hc] at h'
      cases h'
      exact ⟨rs, collectKernelResults_ok resource _ rs hc, rfl⟩

/-- A kernel provider that matches everything and fails to enumerate. -/
def sampleFailingProvider : INotebookKernelProvider :=
  { providerExtensionId := "e1", providerDescription := none,
    selectorMatches := fun _ _ => true,
    provideKernels := fun _ => Except.error "enumeration failed" }

/-- A kernel provider that matches everything and returns two kernels. -/
def sampleKernelProviderA : INotebookKernelProvider :=
  { providerExtensionId := "e2", providerDescription := none,
    selectorMatches := fun _ _ => true,
    provideKernels := fun _ =>
      Except.ok [{ friendlyId := "k1" }, { friendlyId := "k2" }] }

/-- A kernel provider matching only viewType "vt", returning one kernel. -/
def sampleKernelProviderB : INotebookKernelProvider :=
  { providerExtensionId := "e3", providerDescription := none,
    selectorMatches := fun viewType _ => viewType == "vt",
    provideKernels := fun _ => Except.ok [{ friendlyId := "k3" }] }

/-- Witness for C6: with a failing matching provider the whole call fails;
with two succeeding matching providers the call returns the concatenation
of their result lists in registration order. -/
theorem getNotebookKernels_join_spec_witness :
    (∃ p ∈ kernelProvidersFor [sampleFailingProvider] "vt" sampleUri,
      ∃ err, p.provideKernels sampleUri = Except.error err) ∧
    (∃ err, getNotebookKernels [sampleFailingProvider] "vt" sampleUri =
      Except.error err) ∧
    getNotebookKernels [sampleKernelProviderA, sampleKernelProviderB] "vt"
      sampleUri =
      Except.ok [{ friendlyId := "k1" }, { friendlyId := "k2" },
                 { friendlyId := "k3" }] ∧
    (∃ results : List (List INotebookKernel),
      (kernelProvidersFor [sampleKernelProviderA, sampleKernelProviderB] "vt"
        sampleUri).map (fun p => p.provideKernels sampleUri) =
        results.map Except.ok ∧
      ([{ friendlyId := "k1" }, { friendlyId := "k2" },
        { friendlyId := "k3" }] : List INotebookKernel) = results.flatten) := by
  have hmem : sampleFailingProvider ∈
      kernelProvidersFor [sampleFailingProvider] "vt" sampleUri := by
    rw [show kernelProvidersFor [sampleFailingProvider] "vt" sampleUri =
      [sampleFailingProvider] from rfl]
    exact List.mem_singleton.mpr rfl
  have hfail : ∃ p ∈ kernelProvidersFor [sampleFailingProvider] "vt" sampleUri,
      ∃ err, p.provideKernels sampleUri = Except.error err :=
    ⟨sampleFailingProvider, hmem, "enumeration failed", rfl⟩
  refine ⟨hfail, ?_, rfl, ?_⟩
  · exact (getNotebookKernels_join_spec [sampleFailingProvider] "vt"
      sampleUri).1 hfail
  · exact (getNotebookKernels_join_spec [sampleKernelProviderA,
      sampleKernelProviderB] "vt" sampleUri).2 _ rfl

/-! ## Controller registration and disposal (C10) -/

theorem find?_map_id_preserving (f : NotebookProviderInfo → NotebookProviderInfo)
    (hf : ∀ i, (f i).id = i.id) (s : List NotebookProviderInfo) (vt' : String) :
    List.find? (fun i => i.id = vt') (s.map f) =
      Option.map f (List.find? (fun i => i.id = vt') s) := by
  induction s with
  | nil => rfl
  | cons i rest ih =>
    simp only [List.map_cons, List.find?_cons]
    by_cases h : i.id = vt'
    · simp [hf i, h]
    · simp [hf i, h, ih]

theorem ProviderInfoStore.get_updateOptions_isSome (s : ProviderInfoStore)
    (viewType vt' : String) (opts : TransientOptions) :
    (ProviderInfoStore.get
      (ProviderInfoStore.updateOptions s viewType opts) vt').isSome =
      (ProviderInfoStore.get s vt').isSome := by
  unfold ProviderInfoStore.get ProviderInfoStore.updateOptions
  rw [find?_map_id_preserving (fun info =>
    if info.id = viewType then { info with options := some opts } else info)
    (fun i => by by_cases h : i.id = viewType <;> simp [h]) s vt']
  simp

theorem ProviderInfoStore.hasId_false_of_get_none (s : ProviderInfoStore)
    (viewType : String) (h : ProviderInfoStore.get s viewType = none) :
    ProviderInfoStore.hasId s viewType = false := by
  unfold ProviderInfoStore.get at h
  unfold ProviderInfoStore.hasId
  rw [List.any_eq_false]
  intro x hx
  have := List.find?_eq_none.mp h x hx
  simpa using this

theorem ProviderInfoStore.get_add_of_none (s : ProviderInfoStore)
    (info : NotebookProviderInfo) (viewType : String) (hid : info.id = viewType)
    (h : ProviderInfoStore.get s viewType = none) :
    ProviderInfoStore.get (ProviderInfoStore.add s info) viewType = some info := by
  unfold ProviderInfoStore.add
  rw [hid, ProviderInfoStore.hasId_false_of_get_none s viewType h]
  simp only [Bool.false_eq_true, if_false]
  unfold ProviderInfoStore.get at h ⊢
  rw [List.find?_append, h]
  simp [List.find?_cons, hid]

/-- C10: disposing the handle returned by `registerNotebookController`
removes only that viewType's controller entry and re-fires the
editor-types-changed event; the provider-info store (and every other piece
of service state) is untouched — in particular, when the controller had
declared view options, provider-info lookups for the viewType still succeed
after the controller is gone. -/
theorem disposeController_preserves_provider_info
    (s s1 : NotebookServiceState) (viewType : String)
    (extensionData : NotebookExtensionDescription)
    (controller : IMainNotebookController)
    (hreg : registerNotebookController s viewType extensionData controller =
      Except.ok s1) :
    AssocMap.get (disposeNotebookController s1 viewType).notebookProviders
      viewType = none ∧
    (∀ vt', vt' ≠ viewType →
      AssocMap.get (disposeNotebookController s1 viewType).notebookProviders vt' =
        AssocMap.get s1.notebookProviders vt') ∧
    (disposeNotebookController s1 viewType).notebookProviderInfoStore =
      s1.notebookProviderInfoStore ∧
    (disposeNotebookController s1 viewType).notebookRenderersInfoStore =
      s1.notebookRenderersInfoStore ∧
    (disposeNotebookController s1 viewType).models = s1.models ∧
    (disposeNotebookController s1 viewType).notebookKernelProviders =
      s1.notebookKernelProviders ∧
    (disposeNotebookController s1 viewType).trace =
      s1.trace ++ [ServiceEvent.changedEditorTypes] ∧
    getContributedNotebookProvider (disposeNotebookController s1 viewType)
      viewType = getContributedNotebookProvider s1 viewType ∧
    (controller.viewOptions.isSome = true →
      (getContributedNotebookProvider (disposeNotebookController s1 viewType)
        viewType).isSome = true) := by
  refine ⟨AssocMap.get_delete_self _ _,
    fun vt' hne => AssocMap.get_delete_ne _ _ _ hne,
    rfl, rfl, rfl, rfl, rfl, rfl, ?_⟩
  intro hvo
  rcases Option.isSome_iff_exists.mp hvo with ⟨vo, hvo'⟩
  by_cases hhas : AssocMap.has s.notebookProviders viewType
  · unfold registerNotebookController at hreg
    rw [hhas] at hreg
    simp at hreg
  · unfold registerNotebookController at hreg
    rw [Bool.of_not_eq_true hhas] at hreg
    simp only [Bool.false_eq_true, if_false, Except.ok.injEq] at hreg
    subst hreg
    rw [hvo']
    cases hget : ProviderInfoStore.get s.notebookProviderInfoStore viewType with
    | none =>
      unfold getContributedNotebookProvider disposeNotebookController
      rw [ProviderInfoStore.get_updateOptions_isSome]
      rw [ProviderInfoStore.get_add_of_none s.notebookProviderInfoStore _
        viewType rfl hget]
      rfl
    | some p =>
      unfold getContributedNotebookProvider disposeNotebookController
      rw [ProviderInfoStore.get_updateOptions_isSome]
      rw [hget]
      rfl

/-- A controller declaring view options, used by the C10 witness. -/
def sampleController : IMainNotebookController :=
  { viewOptions := some { displayName := "Sample Notebook",
                          filenamePattern := [], exclusive := false },
    options := { transientOutputs := true } }

/-- The extension data accompanying `sampleController`. -/
def sampleExtensionData : NotebookExtensionDescription :=
  { id := "publisher.sample", location := { scheme := "file", path := "/ext" },
    description := none }

/-- `sampleState` after registering `sampleController` for viewType "vt"
(the registration succeeds on the empty controller map). -/
def sampleRegisteredState : NotebookServiceState :=
  match registerNotebookController sampleState "vt" sampleExtensionData
      sampleController with
  | Except.ok st => st
  | Except.error _ => sampleState

/-- Witness for C10: after registering and disposing the sample controller,
the controller entry is gone, the provider-info store is untouched, and the
synthesized dynamic provider-info entry for "vt" is still retrievable. -/
theorem disposeController_preserves_provider_info_witness :
    registerNotebookController sampleState "vt" sampleExtensionData
      sampleController = Except.ok sampleRegisteredState ∧
    AssocMap.get
      (disposeNotebookController sampleRegisteredState "vt").notebookProviders
      "vt" = none ∧
    (disposeNotebookController sampleRegisteredState "vt").notebookProviderInfoStore
      = sampleRegisteredState.notebookProviderInfoStore ∧
    (getContributedNotebookProvider
      (disposeNotebookController sampleRegisteredState "vt") "vt").isSome = true := by
  refine ⟨rfl, ?_, ?_, ?_⟩
  · exact (disposeController_preserves_provider_info sampleState
      sampleRegisteredState "vt" sampleExtensionData sampleController rfl).1
  · exact (disposeController_preserves_provider_info sampleState
      sampleRegisteredState "vt" sampleExtensionData sampleController rfl).2.2.1
  · exact (disposeController_preserves_provider_info sampleState
      sampleRegisteredState "vt" sampleExtensionData sampleController
      rfl).2.2.2.2.2.2.2.2 rfl

/-! ## Mime resolution: completeness (C1) and trust flags (C3) -/

theorem mem_collectMimes_aux (outputs : List IOutputItem) (acc : List String)
    (m : String) :
    m ∈ outputs.foldl
      (fun acc op => if acc.contains op.mime then acc else acc ++ [op.mime]) acc ↔
    m ∈ acc ∨ m ∈ outputs.map (fun op => op.mime) := by
  induction outputs generalizing acc with
  | nil => simp
  | cons op ops ih =>
    simp only [List.foldl_cons, List.map_cons, List.mem_cons]
    rw [ih]
    by_cases h : acc.contains op.mime
    · have hmem : op.mime ∈ acc := by simpa using h
      rw [if_pos h]
      constructor
      · rintro (h' | h')
        · exact Or.inl h'
        · exact Or.inr (Or.inr h')
      · rintro (h' | h' | h')
        · exact Or.inl h'
        · exact Or.inl (h' ▸ hmem)
        · exact Or.inr h'
    · rw [if_neg h]
      simp only [List.mem_append, List.mem_singleton]
      tauto

theorem mem_collectMimes (outputs : List IOutputItem) (m : String) :
    m ∈ collectMimes outputs ↔ ∃ op ∈ outputs, op.mime = m := by
  unfold collectMimes
  rw [mem_collectMimes_aux]
  simp [List.mem_map]

theorem nodup_collectMimes_aux (outputs : List IOutputItem) (acc : List String)
    (hacc : acc.Nodup) :
    (outputs.foldl
      (fun acc op => if acc.contains op.mime then acc else acc ++ [op.mime])
      acc).Nodup := by
  induction outputs generalizing acc with
  | nil => exact hacc
  | cons op ops ih =>
    simp only [List.foldl_cons]
    by_cases h : acc.contains op.mime
    · rw [if_pos h]
      exact ih acc hacc
    · rw [if_neg h]
      refine ih _ ?_
      rw [List.nodup_append]
      refine ⟨hacc, List.nodup_singleton _, ?_⟩
      intro x hx hx'
      rw [List.mem_singleton] at hx'
      subst hx'
      exact h (by simpa using hx)

theorem nodup_collectMimes (outputs : List IOutputItem) :
    (collectMimes outputs).Nodup :=
  nodup_collectMimes_aux outputs [] List.nodup_nil

theorem mem_sortMimeTypes (mimeTypes userOrder defaultOrder : List String)
    (m : String) :
    m ∈ sortMimeTypes mimeTypes userOrder defaultOrder ↔ m ∈ mimeTypes :=
  (List.perm_insertionSort
    (fun a b => mimeKeyLe userOrder defaultOrder a b = true) mimeTypes).mem_iff

theorem nodup_sortMimeTypes (mimeTypes userOrder defaultOrder : List String)
    (h : mimeTypes.Nodup) :
    (sortMimeTypes mimeTypes userOrder defaultOrder).Nodup :=
  ((List.perm_insertionSort
    (fun a b => mimeKeyLe userOrder defaultOrder a b = true)
    mimeTypes).nodup_iff).mpr h

/-- Every entry `handleMime` emits for a mime type carries that mime type,
and is either the built-in entry (trusted iff always-secure or document
trusted), the no-renderer sentinel (document trust, only when no renderer
matched), or one matching renderer's entry (document trust). -/
theorem handleMime_entry (oracle : CoreMimeOracle) (store : RendererStore)
    (trusted : Bool) (mimeType : String) (e : IOrderedMimeType)
    (he : e ∈ handleMime oracle store trusted mimeType) :
    e.mimeType = mimeType ∧
    ((e.rendererId = BUILTIN_RENDERER_ID ∧
        e.isTrusted = (oracle.alwaysSecure mimeType || trusted) ∧
        oracle.supportedByCore mimeType = true) ∨
     (e.rendererId = RENDERER_NOT_AVAILABLE ∧ e.isTrusted = trusted ∧
        RendererStore.getContributedRenderer store mimeType = [] ∧
        oracle.supportedByCore mimeType = false) ∨
     (∃ handler ∈ RendererStore.getContributedRenderer store mimeType,
        e.rendererId = handler.id ∧ e.isTrusted = trusted)) := by
  unfold handleMime at he
  cases hc : RendererStore.getContributedRenderer store mimeType with
  | nil =>
    rw [hc] at he
    by_cases h : oracle.supportedByCore mimeType
    · rw [if_pos h] at he
      rw [List.mem_singleton] at he
      subst he
      exact ⟨rfl, Or.inl ⟨rfl, rfl, h⟩⟩
    · rw [if_neg h] at he
      rw [List.mem_singleton] at he
      subst he
      exact ⟨rfl, Or.inr (Or.inl ⟨rfl, rfl, rfl, Bool.of_not_eq_true h⟩)⟩
  | cons handler restHandlers =>
    rw [hc] at he
    rcases List.mem_append.mp he with he' | he'
    · rcases List.mem_cons.mp he' with he'' | he''
      · subst he''
        exact ⟨rfl, Or.inr (Or.inr ⟨handler, List.mem_cons_self _ _, rfl, rfl⟩)⟩
      · rcases List.mem_map.mp he'' with ⟨h', hh', he3⟩
        subst he3
        exact ⟨rfl, Or.inr (Or.inr ⟨h', List.mem_cons_of_mem _ hh', rfl, rfl⟩)⟩
    · by_cases h : oracle.supportedByCore mimeType
      · rw [if_pos h] at he'
        rw [List.mem_singleton] at he'
        subst he'
        exact ⟨rfl, Or.inl ⟨rfl, rfl, h⟩⟩
      · rw [if_neg h] at he'
        cases he'

theorem handleMime_ne_nil (oracle : CoreMimeOracle) (store : RendererStore)
    (trusted : Bool) (mimeType : String) :
    handleMime oracle store trusted mimeType ≠ [] := by
  unfold handleMime
  cases hc : RendererStore.getContributedRenderer store mimeType with
  | nil =>
    by_cases h : oracle.supportedByCore mimeType
    · rw [if_pos h]
      exact List.cons_ne_nil _ _
    · rw [if_neg h]
      exact List.cons_ne_nil _ _
  | cons handler restHandlers =>
    intro hcontra
    exact List.cons_ne_nil _ _ (List.append_eq_nil.mp hcontra).1

theorem filter_flatMap_handleMime (oracle : CoreMimeOracle) (store : RendererStore)
    (trusted : Bool) (l : List String) (m : String)
    (hnd : l.Nodup) (hm : m ∈ l) :
    (l.flatMap (handleMime oracle store trusted)).filter
      (fun e => e.mimeType == m) = handleMime oracle store trusted m := by
  induction l with
  | nil => cases hm
  | cons x xs ih =>
    rw [List.flatMap_cons, List.filter_append]
    rcases List.mem_cons.mp hm with heq | hm'
    · subst heq
      have h1 : (handleMime oracle store trusted m).filter
          (fun e => e.mimeType == m) = handleMime oracle store trusted m :=
        List.filter_eq_self.mpr (fun e he => by
          rw [(handleMime_entry oracle store trusted m e he).1]
          exact beq_self_eq_true m)
      have h2 : (xs.flatMap (handleMime oracle store trusted)).filter
          (fun e => e.mimeType == m) = [] := by
        rw [List.filter_eq_nil_iff]
        intro e he
        rcases List.mem_flatMap.mp he with ⟨y, hy, hey⟩
        have h3 := (handleMime_entry oracle store trusted y e hey).1
        have hmy : m ≠ y := fun hcontra =>
          (List.nodup_cons.mp hnd).1 (by rw [hcontra]; exact hy)
        simp only [h3, beq_iff_eq]
        exact fun hcontra => hmy hcontra.symm
      rw [h1, h2, List.append_nil]
    · have hx : x ≠ m := fun hcontra =>
        (List.nodup_cons.mp hnd).1 (by rw [hcontra]; exact hm')
      have h1 : (handleMime oracle store trusted x).filter
          (fun e => e.mimeType == m) = [] := by
        rw [List.filter_eq_nil_iff]
        intro e he
        have h3 := (handleMime_entry oracle store trusted x e he).1
        simp only [h3, beq_iff_eq]
        exact hx
      rw [h1, List.nil_append]
      exact ih (List.nodup_cons.mp hnd).2 hm'

/-- C1: every distinct mime type of the payload appears at least once in
the resolved sequence; its entries are exactly the per-mime step's output,
which is one entry per matching renderer in registration order (plus one
built-in entry when natively supported) when renderers match, a single
built-in entry when only native support applies, and a single no-renderer
sentinel entry otherwise — no mime type is dropped. -/
theorem getMimeTypeInfo_fallback_complete
    (oracle : CoreMimeOracle) (store : RendererStore)
    (displayOrder : DisplayOrder) (trusted : Bool) (output : IOutputDto)
    (m : String) (hm : ∃ op ∈ output.outputs, op.mime = m) :
    (∃ e ∈ getMimeTypeInfo oracle store displayOrder trusted output,
      e.mimeType = m) ∧
    (getMimeTypeInfo oracle store displayOrder trusted output).filter
      (fun e => e.mimeType == m) = handleMime oracle store trusted m ∧
    (∀ handler restHandlers,
      RendererStore.getContributedRenderer store m = handler :: restHandlers →
      handleMime oracle store trusted m =
        ((handler :: restHandlers).map (fun h =>
          ({ mimeType := m, rendererId := h.id, isTrusted := trusted } :
            IOrderedMimeType))) ++
        (if oracle.supportedByCore m then
          [{ mimeType := m, rendererId := BUILTIN_RENDERER_ID,
             isTrusted := oracle.alwaysSecure m || trusted }]
         else [])) ∧
    (RendererStore.getContributedRenderer store m = [] →
      handleMime oracle store trusted m =
        (if oracle.supportedByCore m then
          [{ mimeType := m, rendererId := BUILTIN_RENDERER_ID,
             isTrusted := oracle.alwaysSecure m || trusted }]
         else
          [{ mimeType := m, rendererId := RENDERER_NOT_AVAILABLE,
             isTrusted := trusted }])) := by
  have hmem : m ∈ collectMimes output.outputs := (mem_collectMimes _ m).mpr hm
  have hnd : (sortMimeTypes (collectMimes output.outputs) displayOrder.userOrder
      displayOrder.defaultOrder).Nodup :=
    nodup_sortMimeTypes _ _ _ (nodup_collectMimes _)
  have hsmem : m ∈ sortMimeTypes (collectMimes output.outputs)
      displayOrder.userOrder displayOrder.defaultOrder :=
    (mem_sortMimeTypes _ _ _ m).mpr hmem
  have heq : getMimeTypeInfo oracle store displayOrder trusted output =
      (sortMimeTypes (collectMimes output.outputs) displayOrder.userOrder
        displayOrder.defaultOrder).flatMap (handleMime oracle store trusted) := rfl
  have hfilter := filter_flatMap_handleMime oracle store trusted _ m hnd hsmem
  refine ⟨?_, by rw [heq]; exact hfilter, ?_, ?_⟩
  · rcases List.exists_mem_of_ne_nil _
      (handleMime_ne_nil oracle store trusted m) with ⟨e, he⟩
    refine ⟨e, ?_, (handleMime_entry oracle store trusted m e he).1⟩
    rw [heq]
    exact List.mem_flatMap.mpr ⟨m, hsmem, he⟩
  · intro handler restHandlers hc
    unfold handleMime
    rw [hc]
    rfl
  · intro hc
    unfold handleMime
    rw [hc]

/-- Witness for C1 at the spec's scenario: outputs `text/plain` and
`image/png`, no renderer registered, both natively supported — the resolved
sequence is the two built-in entries in that order, and `text/plain` (a
mime of the payload) appears in it. -/
theorem getMimeTypeInfo_fallback_complete_witness :
    (∃ op ∈ ({ outputs := [{ mime := "text/plain" }, { mime := "image/png" }] } :
      IOutputDto).outputs, op.mime = "text/plain") ∧
    (∃ e ∈ getMimeTypeInfo sampleOracle [] { userOrder := [], defaultOrder := [] }
        true { outputs := [{ mime := "text/plain" }, { mime := "image/png" }] },
      e.mimeType = "text/plain") ∧
    getMimeTypeInfo sampleOracle [] { userOrder := [], defaultOrder := [] } true
      { outputs := [{ mime := "text/plain" }, { mime := "image/png" }] } =
      [{ mimeType := "text/plain", rendererId := BUILTIN_RENDERER_ID,
         isTrusted := true },
       { mimeType := "image/png", rendererId := BUILTIN_RENDERER_ID,
         isTrusted := true }] := by
  refine ⟨by decide, ?_, rfl⟩
  exact (getMimeTypeInfo_fallback_complete sampleOracle []
    { userOrder := [], defaultOrder := [] } true
    { outputs := [{ mime := "text/plain" }, { mime := "image/png" }] }
    "text/plain" (by decide)).1

/-- C3: in every resolved sequence, an entry carrying the built-in renderer
id is trust-flagged with (mime always-secure OR document trusted), and every
other entry — extension-renderer entries and no-renderer sentinel entries —
carries exactly the document's trust flag. (The hypothesis rules out
extension renderers squatting on the two reserved ids.) -/
theorem getMimeTypeInfo_trust_flags
    (oracle : CoreMimeOracle) (store : RendererStore)
    (displayOrder : DisplayOrder) (trusted : Bool) (output : IOutputDto)
    (hids : ∀ r ∈ store, r.id ≠ BUILTIN_RENDERER_ID ∧
      r.id ≠ RENDERER_NOT_AVAILABLE) :
    ∀ e ∈ getMimeTypeInfo oracle store displayOrder trusted output,
      (e.rendererId = BUILTIN_RENDERER_ID →
        e.isTrusted = (oracle.alwaysSecure e.mimeType || trusted)) ∧
      (e.rendererId ≠ BUILTIN_RENDERER_ID → e.isTrusted = trusted) := by
  intro e he
  have he' : e ∈ (sortMimeTypes (collectMimes output.outputs)
      displayOrder.userOrder displayOrder.defaultOrder).flatMap
      (handleMime oracle store trusted) := he
  rcases List.mem_flatMap.mp he' with ⟨y, hy, hey⟩
  rcases handleMime_entry oracle store trusted y e hey with ⟨hmt, hcase⟩
  constructor
  · intro hb
    rcases hcase with ⟨-, htr, -⟩ | ⟨hid, -, -, -⟩ | ⟨handler, hh, hid, -⟩
    · rw [htr, hmt]
    · rw [hid] at hb
      exact absurd hb (by decide)
    · rw [hid] at hb
      have hstore : handler ∈ store :=
        (List.mem_filter.mp hh).1
      exact absurd hb (hids handler hstore).1
  · intro hb
    rcases hcase with ⟨hid, -, -⟩ | ⟨-, htr, -, -⟩ | ⟨handler, -, -, htr⟩
    · exact absurd hid hb
    · exact htr
    · exact htr

/-- Witness for C3 at the spec's scenario: two renderers registered for
`application/json`, document untrusted, mime not always-secure — both
renderer entries and the built-in entry come out trust-flagged false. -/
theorem getMimeTypeInfo_trust_flags_witness :
    (∀ r ∈ ([sampleRendererA, sampleRendererB] : RendererStore),
      r.id ≠ BUILTIN_RENDERER_ID ∧ r.id ≠ RENDERER_NOT_AVAILABLE) ∧
    (∀ e ∈ getMimeTypeInfo sampleOracle [sampleRendererA, sampleRendererB]
        { userOrder := [], defaultOrder := [] } false
        { outputs := [{ mime := "application/json" }] },
      (e.rendererId = BUILTIN_RENDERER_ID →
        e.isTrusted = (sampleOracle.alwaysSecure e.mimeType || false)) ∧
      (e.rendererId ≠ BUILTIN_RENDERER_ID → e.isTrusted = false)) ∧
    getMimeTypeInfo sampleOracle [sampleRendererA, sampleRendererB]
      { userOrder := [], defaultOrder := [] } false
      { outputs := [{ mime := "application/json" }] } =
      [{ mimeType := "application/json", rendererId := "rendererA",
         isTrusted := false },
       { mimeType := "application/json", rendererId := "rendererB",
         isTrusted := false },
       { mimeType := "application/json", rendererId := BUILTIN_RENDERER_ID,
         isTrusted := false }] := by
  refine ⟨by decide, ?_, rfl⟩
  exact getMimeTypeInfo_trust_flags sampleOracle
    [sampleRendererA, sampleRendererB] { userOrder := [], defaultOrder := [] }
    false { outputs := [{ mime := "application/json" }] } (by decide)
